import Mathlib

/-!
Shallow embedding of the ptwinrm WinRM console (src/ptwinrm/ptwinrm.py).

The program is a thin console around three external collaborators: a WinRM
session (modelled as a function from remote calls to results or raised
errors), the keyring secret store (modelled as a lookup function plus an
explicit trace of get/set operations), and the prompt-toolkit line editor
(modelled by feeding input events to one loop iteration).

Python bytes are modelled as `List Nat`; a text codec is a function
`List Nat → Option String` where `none` models a UnicodeDecodeError raised
during `.decode(encoding)`. Printed lines are collected in `List String`
in program order. Raised exceptions are modelled with `Except PyError`.
-/

set_option autoImplicit false
set_option linter.unusedVariables false

namespace Ptwinrm

/-- Python `str.isspace`-style whitespace characters relevant to `str.strip()`
and `str.split()` (ASCII range, as exercised by this program). -/
def pyIsSpace (c : Char) : Bool :=
  c == ' ' || c == '\t' || c == '\n' || c == '\r' || c == '\x0b' || c == '\x0c'

/-- Python `str.strip()` on the character list: drop whitespace from both ends. -/
def pyStripChars (l : List Char) : List Char :=
  ((l.dropWhile pyIsSpace).reverse.dropWhile pyIsSpace).reverse

/-- Python `str.strip()` with no arguments. -/
def pyStrip (s : String) : String :=
  String.mk (pyStripChars s.data)

/-- Helper for Python `str.split()` with no arguments: split on runs of
whitespace, discarding empty tokens. `acc` is the current token, reversed. -/
def pySplitAux : List Char → List Char → List (List Char)
  | [], acc => if acc.isEmpty then [] else [acc.reverse]
  | c :: rest, acc =>
    if pyIsSpace c then
      if acc.isEmpty then pySplitAux rest [] else acc.reverse :: pySplitAux rest []
    else pySplitAux rest (c :: acc)

/-- Python `str.split()` with no arguments. -/
def pySplit (s : String) : List String :=
  (pySplitAux s.data []).map String.mk

/-- ASCII whitespace bytes, as stripped by Python `bytes.strip()`. -/
def byteIsSpace (b : Nat) : Bool :=
  b == 32 || b == 9 || b == 10 || b == 13 || b == 11 || b == 12

/-- Python `bytes.strip()` with no arguments. -/
def pyBytesStrip (bs : List Nat) : List Nat :=
  ((bs.dropWhile byteIsSpace).reverse.dropWhile byteIsSpace).reverse

/-- The bytes of a string (each character as its code point), used to build
concrete `bytes` values for tests. -/
def strBytes (s : String) : List Nat :=
  s.data.map Char.toNat

/-- The ASCII codec: decodes iff every byte is below 128. A concrete instance
of the configured `--encoding` codec. -/
def asciiDecode (bs : List Nat) : Option String :=
  if bs.all (fun b => b < 128) then some (String.mk (bs.map Char.ofNat)) else none

/-- A remote call issued through the WinRM session: `session.run_ps(script)`
or `session.run_cmd(command, args)`. -/
inductive RemoteCall where
  | runPs (script : String)
  | runCmd (command : String) (args : List String)
  deriving DecidableEq, Repr

/-- The result object returned by the winrm library for one command/script:
`status_code`, `std_out`, `std_err` (the latter two are bytes). -/
structure CommandResult where
  status_code : Int
  std_out : List Nat
  std_err : List Nat
  deriving DecidableEq, Repr

/-- The Python exceptions this program's control flow distinguishes. -/
inductive PyError where
  | invalidCredentials (m : String)
  | connectionError (m : String)
  | unicodeDecodeError
  | attributeError (m : String)
  | other (m : String)
  deriving DecidableEq, Repr

/-- Model of `str(error)`, as interpolated into printed messages. -/
def PyError.message : PyError → String
  | .invalidCredentials m => m
  | .connectionError m => m
  | .unicodeDecodeError => "UnicodeDecodeError"
  | .attributeError m => m
  | .other m => m

/-- The exception classes caught by `WinRMConsole.run_cmd_line`:
`winrm.exceptions.InvalidCredentialsError` and
`requests.exceptions.ConnectionError`. -/
def PyError.isCaughtByRunCmdLine : PyError → Bool
  | .invalidCredentials _ => true
  | .connectionError _ => true
  | _ => false

/-- The WinRM session collaborator: executes a remote call, returning a
result or raising an exception. -/
abbrev Session := RemoteCall → Except PyError CommandResult

/-- The fields of `WinRMConsole` set in `__init__` that the embedded methods
read (the session itself is passed separately as a `Session` function):
`encoding` is the configured codec, `multiline` the toggleable input mode. -/
structure WinRMConsole where
  encoding : List Nat → Option String
  multiline : Bool

/-- Method `WinRMConsole.toggle_multiline`: flips the flag and returns its new value. -/
def toggle_multiline (c : WinRMConsole) : WinRMConsole × Bool :=
  ({ c with multiline := !c.multiline }, !c.multiline)

/-- The `try`/`except` of `WinRMConsole.run_cmd_line` around one session call:
a caught `InvalidCredentialsError`/`ConnectionError` prints
`ERROR: <message>` and yields `None`; other exceptions propagate. -/
def sessionTry (session : Session) (call : RemoteCall) :
    List String × Except PyError (Option CommandResult) :=
  match session call with
  | .ok r => ([], .ok (some r))
  | .error e =>
    if e.isCaughtByRunCmdLine then (["ERROR: " ++ e.message], .ok none)
    else ([], .error e)

/-- Method `WinRMConsole.run_cmd_line` (with the inlined `__run_cmd_line`): returns
the list of remote calls issued, the lines printed, and the outcome
(`.ok none` models Python returning `None`). The method body reads only
`self.session`; `console` carries the other `self` fields. -/
def run_cmd_line (console : WinRMConsole) (session : Session) (cmd_line : String) :
    List RemoteCall × List String × Except PyError (Option CommandResult) :=
  if pyStrip cmd_line = "" then ([], [], .ok none)
  else if '\n' ∈ cmd_line.data then
    ([RemoteCall.runPs cmd_line], sessionTry session (RemoteCall.runPs cmd_line))
  else
    match pySplit cmd_line with
    | [] => ([], [], .error (PyError.other "IndexError"))
    | c :: args => ([RemoteCall.runCmd c args], sessionTry session (RemoteCall.runCmd c args))

/-- Method `WinRMConsole.handle_cmd_result`: returns the printed lines and either the
returned value (the result object itself, or `None` for `None` input) or the
`UnicodeDecodeError` raised when a `.decode(self.encoding)` call fails. -/
def handle_cmd_result (console : WinRMConsole) (result : Option CommandResult) :
    List String × Except PyError (Option CommandResult) :=
  match result with
  | none => ([], .ok none)
  | some r =>
    if r.status_code ≠ 0 then
      match console.encoding r.std_err with
      | none => ([], .error PyError.unicodeDecodeError)
      | some err =>
        (["ERROR (" ++ toString r.status_code ++ "): " ++ err], .ok (some r))
    else
      match console.encoding r.std_out with
      | none => ([], .error PyError.unicodeDecodeError)
      | some out =>
        if r.std_err ≠ [] then
          match console.encoding r.std_err with
          | none => ([out], .error PyError.unicodeDecodeError)
          | some err => ([out, "ERROR: " ++ err], .ok (some r))
        else ([out], .ok (some r))

/-- Method `WinRMConsole.rep`: run the line, then hand the result to
`handle_cmd_result`; exceptions from either stage propagate. -/
def rep (console : WinRMConsole) (session : Session) (cmd_line : String) :
    List RemoteCall × List String × Except PyError (Option CommandResult) :=
  match run_cmd_line console session cmd_line with
  | (calls, prints, .error e) => (calls, prints, .error e)
  | (calls, prints, .ok r) =>
    match handle_cmd_result console r with
    | (prints2, out) => (calls, prints ++ prints2, out)

/-- Method `WinRMConsole.get_prompt`: `r = self.run_cmd_line('cd')`, then
`r.std_out.strip().decode(self.encoding) + ">"`. When `run_cmd_line`
returned `None` (a caught session error), attribute access on `None`
raises `AttributeError`. -/
def get_prompt (console : WinRMConsole) (session : Session) :
    List RemoteCall × List String × Except PyError String :=
  match run_cmd_line console session "cd" with
  | (calls, prints, .error e) => (calls, prints, .error e)
  | (calls, prints, .ok none) =>
    (calls, prints, .error (PyError.attributeError "NoneType object has no attribute std_out"))
  | (calls, prints, .ok (some r)) =>
    match console.encoding (pyBytesStrip r.std_out) with
    | none => (calls, prints, .error PyError.unicodeDecodeError)
    | some s => (calls, prints, .ok (s ++ ">"))

/-- Startup phase of `WinRMConsole.repl`: compute the initial prompt inside
`try`; on any exception print `ERROR: <e>` and return (loop never entered).
Result: all printed lines, and `some promptMsg` iff the loop is entered. -/
def repl_startup (console : WinRMConsole) (session : Session) :
    List String × Option String :=
  match get_prompt console session with
  | (_, prints, .ok p) => (prints, some p)
  | (_, prints, .error e) => (prints ++ ["ERROR: " ++ e.message], none)

/-- One input event delivered to the REPL loop body: a line from the prompt,
or `EOFError`/`KeyboardInterrupt` raised by it. -/
inductive ReplInput where
  | line (s : String)
  | interrupt
  deriving DecidableEq, Repr

/-- One iteration of the `while True` loop in `WinRMConsole.repl`: returns
the lines printed by `print` calls, whether the loop continues, and
`some e` iff the bare `except:` handler ran `sys.excepthook` on exception
`e` (which writes a traceback, not a `print`ed line). -/
def repl_iteration (console : WinRMConsole) (session : Session) (input : ReplInput) :
    List String × Bool × Option PyError :=
  match input with
  | .interrupt => (["\nCtrl-C pressed. Bailing out!"], false, none)
  | .line s =>
    match rep console session s with
    | (_, prints, .ok _) => (prints, true, none)
    | (_, prints, .error e) => (prints, true, some e)

/-- One-shot mode tail of `main`: `code = cmd_result.status_code if cmd_result
else 1; sys.exit(code)`. The winrm result object is always truthy, `None` is
falsy. An exception raised by `rep` propagates (no `sys.exit` reached). -/
def one_shot_exit (console : WinRMConsole) (session : Session) (runArg : String) :
    Except PyError Int :=
  match rep console session runArg with
  | (_, _, .ok (some r)) => .ok r.status_code
  | (_, _, .ok none) => .ok 1
  | (_, _, .error e) => .error e

/-- Constant `DEFAULT_USER_KEY`: the sentinel account name under which the default
username of a host is cached. -/
def DEFAULT_USER_KEY : String := "__default_08723efe-242f-11e9-8143-7ff2638e4f3e"

/-- One recorded keyring operation: `keyring.get_password(service, account)`
or `keyring.set_password(service, account, value)`. -/
inductive KeyringOp where
  | get (service account : String)
  | set (service account value : String)
  deriving DecidableEq, Repr

/-- The account component of a keyring operation's key. -/
def KeyringOp.account : KeyringOp → String
  | .get _ a => a
  | .set _ a _ => a

/-- Whether a keyring operation is a write (`set_password`). -/
def KeyringOp.isSet : KeyringOp → Bool
  | .get _ _ => false
  | .set _ _ _ => true

/-- Python falsiness of `keyring.get_password`'s return value as tested by
`if not user:` / `if not password:` — `None` and the empty string are falsy. -/
def pyFalsy : Option String → Bool
  | none => true
  | some s => s == ""

/-- The `if user is None:` block of `main`: look up the cached default
username; if falsy, use the prompted value and persist it (printing the
confirmation); either way print `User from keyring: <user>`. Returns the
resolved username, the keyring operations, and the printed lines. -/
def resolveUserStep (store : String → String → Option String)
    (promptUser host service : String) :
    String × List KeyringOp × List String :=
  if pyFalsy (store service DEFAULT_USER_KEY) then
    (promptUser,
     [KeyringOp.get service DEFAULT_USER_KEY,
      KeyringOp.set service DEFAULT_USER_KEY promptUser],
     ["Saved new default user " ++ promptUser ++ " for host " ++ host,
      "User from keyring: " ++ promptUser])
  else
    ((store service DEFAULT_USER_KEY).getD "",
     [KeyringOp.get service DEFAULT_USER_KEY],
     ["User from keyring: " ++ (store service DEFAULT_USER_KEY).getD ""])

/-- The `if password is None:` block of `main`: look up the cached password
under the resolved username; if falsy, use the prompted value and persist it
(printing the confirmation); either way print the keyring notice. -/
def resolvePasswordStep (store : String → String → Option String)
    (promptPassword host service user : String) :
    String × List KeyringOp × List String :=
  if pyFalsy (store service user) then
    (promptPassword,
     [KeyringOp.get service user, KeyringOp.set service user promptPassword],
     ["Saved new password for user " ++ user ++ " for host " ++ host,
      "Password for user from keyring"])
  else
    ((store service user).getD "",
     [KeyringOp.get service user],
     ["Password for user from keyring"])

/-- Credential resolution in `main` (the two keyring blocks): from the
CLI-supplied `user?`/`password?` (`none` = flag absent), the store and the
values the interactive prompts would return, compute the resolved
`(user, password)` pair, the keyring operations in order, and the printed
lines in order. `service = "winrm:" + host` per `SERVICE_TMPL`. -/
def resolve_credentials (store : String → String → Option String)
    (promptUser promptPassword host : String) (user? password? : Option String) :
    (String × String) × List KeyringOp × List String :=
  let service := "winrm:" ++ host
  let s1 :=
    match user? with
    | some u => (u, ([] : List KeyringOp), ([] : List String))
    | none => resolveUserStep store promptUser host service
  let s2 :=
    match password? with
    | some p => (p, ([] : List KeyringOp), ([] : List String))
    | none => resolvePasswordStep store promptPassword host service s1.1
  ((s1.1, s2.1), s1.2.1 ++ s2.2.1, s1.2.2 ++ s2.2.2)

/-- A console configured with the ASCII codec (multiline initially off, as in
`__init__`). -/
def asciiConsole : WinRMConsole :=
  { encoding := asciiDecode, multiline := false }

/-- A session on which every call succeeds with an empty result. -/
def okSession : Session := fun _ => .ok ⟨0, [], []⟩

/-- A session whose results carry stdout bytes that the ASCII codec rejects. -/
def badSession : Session := fun _ => .ok ⟨0, [200], []⟩

/-- A session answering the `cd` probe with a padded working directory. -/
def cdSession : Session := fun _ => .ok ⟨0, strBytes " C:\r\n", []⟩

/-- A session on which every call raises `requests.exceptions.ConnectionError`. -/
def connSession : Session := fun _ => .error (PyError.connectionError "connection refused")

/-- A session whose commands exit with status code 3. -/
def s3Session : Session := fun _ => .ok ⟨3, [], strBytes "boom"⟩

/-- An empty secret store: every lookup misses. -/
def emptyStore : String → String → Option String := fun _ _ => none


/-! ## Helper lemmas -/

/-- Tokenising a character list that contains a non-whitespace character (or
with a token already accumulated) yields at least one token. -/
theorem pySplitAux_ne_nil (l : List Char) :
    ∀ acc : List Char, ((∃ c ∈ l, pyIsSpace c = false) ∨ acc ≠ []) →
      pySplitAux l acc ≠ [] := by
  induction l with
  | nil =>
    intro acc h
    rcases h with ⟨c, hc, _⟩ | h
    · exact absurd hc (List.not_mem_nil c)
    · simp [pySplitAux, List.isEmpty_iff, h]
  | cons c rest ih =>
    intro acc h
    by_cases hsp : pyIsSpace c = true
    · simp only [pySplitAux, hsp, if_true]
      by_cases hacc : acc.isEmpty = true
      · simp only [hacc, if_true]
        apply ih
        left
        rcases h with ⟨d, hd, hds⟩ | hne
        · rcases List.mem_cons.mp hd with rfl | hdr
          · rw [hsp] at hds; cases hds
          · exact ⟨d, hdr, hds⟩
        · exact absurd (List.isEmpty_iff.mp hacc) hne
      · simp [hacc]
    · simp only [pySplitAux, hsp, if_false]
      exact ih (c :: acc) (Or.inr (by simp))

/-- A string whose `strip()` is nonempty contains a non-whitespace character. -/
theorem exists_nonspace_of_pyStrip_ne_empty (s : String) (h : pyStrip s ≠ "") :
    ∃ c ∈ s.data, pyIsSpace c = false := by
  by_contra hall
  push_neg at hall
  apply h
  have hdrop : s.data.dropWhile pyIsSpace = [] := by
    rw [List.dropWhile_eq_nil_iff]
    intro x hx
    have hx' := hall x hx
    simpa using hx'
  show pyStrip s = ""
  unfold pyStrip pyStripChars
  rw [hdrop]
  rfl

/-- Python `split()` of a string whose `strip()` is nonempty is nonempty, so
`cmd[0]` in `__run_cmd_line` never raises `IndexError`. -/
theorem pySplit_ne_nil (s : String) (h : pyStrip s ≠ "") : pySplit s ≠ [] := by
  obtain ⟨c, hc, hcs⟩ := exists_nonspace_of_pyStrip_ne_empty s h
  unfold pySplit
  intro hmap
  exact pySplitAux_ne_nil s.data [] (Or.inl ⟨c, hc, hcs⟩) (List.map_eq_nil_iff.mp hmap)

/-- Running the prompt probe line `cd` issues exactly the call
`run_cmd("cd", [])` and otherwise behaves as one guarded session call. -/
theorem run_cmd_line_cd (console : WinRMConsole) (session : Session) :
    run_cmd_line console session "cd" =
      ([RemoteCall.runCmd "cd" []], sessionTry session (RemoteCall.runCmd "cd" [])) := by
  have h1 : pyStrip "cd" ≠ "" := by decide
  have h2 : '\n' ∉ "cd".data := by decide
  have h3 : pySplit "cd" = ["cd"] := by decide
  simp [run_cmd_line, h1, h2, h3]

/-! ## Claim theorems -/

/-- Claim C1: `run_cmd_line` performs the specified case analysis. A line
whose `strip()` is empty (including whitespace containing a line break)
returns `None` with no remote call and no output; a non-whitespace line
containing an embedded line break issues exactly one `run_ps` script call
with the full text verbatim; any other line is tokenized by whitespace and
issues exactly one `run_cmd` call with the first token as command and the
rest as arguments. -/
theorem C1_dispatch_cases (console : WinRMConsole) (session : Session) (line : String) :
    (pyStrip line = "" → run_cmd_line console session line = ([], [], Except.ok none)) ∧
    (pyStrip line ≠ "" → '\n' ∈ line.data →
      (run_cmd_line console session line).1 = [RemoteCall.runPs line]) ∧
    (pyStrip line ≠ "" → '\n' ∉ line.data →
      ∃ c args, pySplit line = c :: args ∧
        (run_cmd_line console session line).1 = [RemoteCall.runCmd c args]) := by
  refine ⟨?_, ?_, ?_⟩
  · intro h
    simp [run_cmd_line, h]
  · intro h hnl
    simp [run_cmd_line, h, hnl]
  · intro h hnl
    obtain ⟨c, args, hsplit⟩ : ∃ c args, pySplit line = c :: args := by
      cases hc : pySplit line with
      | nil => exact absurd hc (pySplit_ne_nil line h)
      | cons c args => exact ⟨c, args, rfl⟩
    exact ⟨c, args, hsplit, by simp [run_cmd_line, h, hnl, hsplit]⟩

/-- Witness for C1: the spec's concrete examples. Empty and whitespace lines
are no-ops, `a\nb` dispatches one script call, `echo hi` dispatches one
command call with command `echo` and arguments `[hi]`. -/
theorem C1_witness :
    run_cmd_line asciiConsole okSession "" = ([], [], Except.ok none) ∧
    run_cmd_line asciiConsole okSession " \n " = ([], [], Except.ok none) ∧
    (run_cmd_line asciiConsole okSession "a\nb").1 = [RemoteCall.runPs "a\nb"] ∧
    (run_cmd_line asciiConsole okSession "echo hi").1 = [RemoteCall.runCmd "echo" ["hi"]] := by
  refine ⟨(C1_dispatch_cases asciiConsole okSession "").1 (by decide),
    (C1_dispatch_cases asciiConsole okSession " \n ").1 (by decide),
    (C1_dispatch_cases asciiConsole okSession "a\nb").2.1 (by decide) (by decide), ?_⟩
  obtain ⟨c, args, hsplit, hcalls⟩ :=
    (C1_dispatch_cases asciiConsole okSession "echo hi").2.2 (by decide) (by decide)
  have hs : pySplit "echo hi" = ["echo", "hi"] := by decide
  rw [hs] at hsplit
  injection hsplit with h1 h2
  rw [hcalls, h1, h2]

/-- Claim C2: `handle_cmd_result` performs the specified rendering case
analysis. `None` prints nothing; a result with nonzero `status_code` prints
only the decoded stderr prefixed `ERROR (<code>): `; a result with zero
`status_code` prints the decoded stdout, plus the decoded stderr prefixed
`ERROR: ` exactly when stderr is non-empty. -/
theorem C2_render_cases (console : WinRMConsole) (r : CommandResult) :
    handle_cmd_result console none = ([], Except.ok none) ∧
    (∀ err, r.status_code ≠ 0 → console.encoding r.std_err = some err →
      (handle_cmd_result console (some r)).1 =
        ["ERROR (" ++ toString r.status_code ++ "): " ++ err]) ∧
    (∀ out, r.status_code = 0 → r.std_err = [] → console.encoding r.std_out = some out →
      (handle_cmd_result console (some r)).1 = [out]) ∧
    (∀ out err, r.status_code = 0 → r.std_err ≠ [] →
      console.encoding r.std_out = some out → console.encoding r.std_err = some err →
      (handle_cmd_result console (some r)).1 = [out, "ERROR: " ++ err]) := by
  refine ⟨rfl, ?_, ?_, ?_⟩
  · intro err h1 h2
    simp [handle_cmd_result, h1, h2]
  · intro out h1 h2 h3
    simp [handle_cmd_result, h1, h2, h3]
  · intro out err h1 h2 h3 h4
    simp [handle_cmd_result, h1, h2, h3, h4]

/-- Witness for C2: the spec's three concrete examples under the ASCII codec. -/
theorem C2_witness :
    (handle_cmd_result asciiConsole (some ⟨2, [], strBytes "bad"⟩)).1 = ["ERROR (2): bad"] ∧
    (handle_cmd_result asciiConsole (some ⟨0, strBytes "ok", []⟩)).1 = ["ok"] ∧
    (handle_cmd_result asciiConsole (some ⟨0, strBytes "ok", strBytes "warn"⟩)).1 =
      ["ok", "ERROR: warn"] :=
  ⟨(C2_render_cases asciiConsole ⟨2, [], strBytes "bad"⟩).2.1 "bad" (by decide) (by rfl),
   (C2_render_cases asciiConsole ⟨0, strBytes "ok", []⟩).2.2.1 "ok" rfl rfl (by rfl),
   (C2_render_cases asciiConsole ⟨0, strBytes "ok", strBytes "warn"⟩).2.2.2 "ok" "warn"
     rfl (by decide) (by rfl) (by rfl)⟩

/-- Counterexample to C3 as stated: with the ASCII codec and a result whose
stdout byte 200 cannot be decoded, the loop iteration prints no line at all
(in particular no `ERROR`-prefixed line); the failure is passed to
`sys.excepthook`, which writes a traceback. The loop does continue. -/
theorem C3_counterexample :
    repl_iteration asciiConsole badSession (ReplInput.line "x") =
      ([], true, some PyError.unicodeDecodeError) := rfl

/-- Claim C3 as amended: an exception raised while rendering a result (in
particular a `UnicodeDecodeError`) does not crash the interactive loop — the
iteration is caught by the bare `except:` and the loop continues — but it is
reported through `sys.excepthook` (a traceback) rather than as a printed
`ERROR: ...` line. -/
theorem C3_iteration_contained (console : WinRMConsole) (session : Session)
    (s : String) (e : PyError)
    (h : (rep console session s).2.2 = Except.error e) :
    repl_iteration console session (ReplInput.line s) =
      ((rep console session s).2.1, true, some e) := by
  rcases hrep : rep console session s with ⟨calls, prints, res⟩
  rw [hrep] at h
  simp only at h
  subst h
  simp [repl_iteration, hrep]

/-- Witness for C3 (amended): a concrete undecodable result exercises the
contained-failure path. -/
theorem C3_witness :
    repl_iteration asciiConsole badSession (ReplInput.line "y") =
      ((rep asciiConsole badSession "y").2.1, true, some PyError.unicodeDecodeError) :=
  C3_iteration_contained asciiConsole badSession "y" PyError.unicodeDecodeError (by rfl)

/-- Counterexample to C4 as stated: with the explicit username equal to the
sentinel `DEFAULT_USER_KEY` and no explicit password, `main`'s password
lookup `keyring.get_password(service_name, user)` does query the
cached-default-username key of the host. -/
theorem C4_counterexample :
    KeyringOp.get "winrm:h" DEFAULT_USER_KEY ∈
      (resolve_credentials emptyStore "u" "pw" "h" (some DEFAULT_USER_KEY) none).2.1 := by
  decide

/-- Claim C4 as amended: for every host and every explicit username distinct
from the sentinel `DEFAULT_USER_KEY`, resolution with an explicit user and no
explicit password touches only keyring keys whose account is that username —
in particular it never reads the cached-default-username key and never writes
anything (the username included) under it. -/
theorem C4_explicit_user_keys (store : String → String → Option String)
    (pu pp host U : String) (hU : U ≠ DEFAULT_USER_KEY) :
    ((resolve_credentials store pu pp host (some U) none).2.1).all
      (fun op => (KeyringOp.account op == U) && !(KeyringOp.account op == DEFAULT_USER_KEY))
      = true := by
  simp only [resolve_credentials, resolvePasswordStep]
  split_ifs <;> simp [KeyringOp.account, hU]

/-- Witness for C4 (amended): a concrete ordinary username. -/
theorem C4_witness :
    ((resolve_credentials emptyStore "u" "pw" "h" (some "alice") none).2.1).all
      (fun op =>
        (KeyringOp.account op == "alice") && !(KeyringOp.account op == DEFAULT_USER_KEY))
      = true :=
  C4_explicit_user_keys emptyStore "u" "pw" "h" "alice" (by decide)

/-- Counterexample to C5 as stated: with an empty store and neither value
supplied explicitly, credential resolution prints four informational lines
(two per block), exceeding the claimed bound of two. -/
theorem C5_counterexample :
    ¬ ((resolve_credentials emptyStore "alice" "pw" "h" none none).2.2.length ≤ 2) := by
  decide

/-- Claim C5 as amended: every invocation of credential resolution performs
at most two secret-store writes and at most four informational prints (and,
by construction of the model, its only side effects are keyring operations
and prints — no network I/O). -/
theorem C5_bounded_effects (store : String → String → Option String)
    (pu pp host : String) (user? password? : Option String) :
    ((resolve_credentials store pu pp host user? password?).2.1.filter
        KeyringOp.isSet).length ≤ 2 ∧
    (resolve_credentials store pu pp host user? password?).2.2.length ≤ 4 := by
  cases user? <;> cases password? <;>
    simp only [resolve_credentials, resolveUserStep, resolvePasswordStep] <;>
    (try split_ifs) <;>
    simp [KeyringOp.isSet]

/-- Claim C6: in one-shot mode, when `rep` produces a result the process
exits with that result's own status code, and when it produces `None`
(empty input or a call failure caught and converted to `None`) the process
exits with code 1. -/
theorem C6_one_shot_exit_code (console : WinRMConsole) (session : Session)
    (runArg : String) (r : CommandResult) :
    ((rep console session runArg).2.2 = Except.ok (some r) →
      one_shot_exit console session runArg = Except.ok r.status_code) ∧
    ((rep console session runArg).2.2 = Except.ok none →
      one_shot_exit console session runArg = Except.ok 1) := by
  constructor <;> intro h <;>
    · unfold one_shot_exit
      rcases hrep : rep console session runArg with ⟨calls, prints, res⟩
      rw [hrep] at h
      simp only at h
      subst h
      rfl

/-- Witness for C6: a command exiting with status code 3 makes the process
exit with code 3; an empty one-shot line produces no result and exit code 1. -/
theorem C6_witness :
    one_shot_exit asciiConsole s3Session "whoami" = Except.ok 3 ∧
    one_shot_exit asciiConsole s3Session "" = Except.ok 1 :=
  ⟨(C6_one_shot_exit_code asciiConsole s3Session "whoami" ⟨3, [], strBytes "boom"⟩).1 (by rfl),
   (C6_one_shot_exit_code asciiConsole s3Session "" ⟨3, [], strBytes "boom"⟩).2 (by rfl)⟩

/-- Counterexample to C7 as stated: on a `cd` stdout of `" C:\r\n"`,
`get_prompt` returns `C:>` — the trimmed decoded stdout with `>` appended —
which is not the trimmed decoded stdout `C:` itself. -/
theorem C7_counterexample :
    (get_prompt asciiConsole cdSession).2.2 = Except.ok "C:>" ∧
    Except.ok "C:>" ≠ (Except.ok "C:" : Except PyError String) := by
  constructor
  · rfl
  · intro h
    exact absurd (Except.ok.inj h) (by decide)

/-- Claim C7 as amended: `get_prompt` issues the remote shell's
print-working-directory command (`cd` with no arguments) as its only remote
call, and returns the trimmed, decoded stdout of that command with the
prompt character `>` appended. -/
theorem C7_prompt_query (console : WinRMConsole) (session : Session) :
    (get_prompt console session).1 = [RemoteCall.runCmd "cd" []] ∧
    (∀ r s, session (RemoteCall.runCmd "cd" []) = Except.ok r →
      console.encoding (pyBytesStrip r.std_out) = some s →
      (get_prompt console session).2.2 = Except.ok (s ++ ">")) := by
  have hc := run_cmd_line_cd console session
  constructor
  · unfold get_prompt
    rw [hc]
    rcases hst : sessionTry session (RemoteCall.runCmd "cd" []) with ⟨p, res⟩
    rcases res with e | r
    · rfl
    · rcases r with _ | r
      · rfl
      · cases henc : console.encoding (pyBytesStrip r.std_out) <;> simp [henc]
  · intro r s hr henc
    unfold get_prompt
    rw [hc]
    have hst : sessionTry session (RemoteCall.runCmd "cd" []) = ([], Except.ok (some r)) := by
      unfold sessionTry
      rw [hr]
    rw [hst]
    simp [henc]

/-- Witness for C7 (amended): the concrete padded `cd` output. -/
theorem C7_witness :
    (get_prompt asciiConsole cdSession).2.2 = Except.ok ("C:" ++ ">") :=
  (C7_prompt_query asciiConsole cdSession).2 (CommandResult.mk 0 (strBytes " C:\r\n") []) "C:"
    (by rfl) (by rfl)

/-- Claim C8: if computing the initial prompt raises any exception, `repl`
prints `ERROR: <e>` after whatever the attempt itself printed and returns
`none` — the read-eval-print loop is never entered. -/
theorem C8_startup_abort (console : WinRMConsole) (session : Session)
    (calls : List RemoteCall) (prints : List String) (e : PyError)
    (h : get_prompt console session = (calls, prints, Except.error e)) :
    repl_startup console session = (prints ++ ["ERROR: " ++ PyError.message e], none) := by
  unfold repl_startup
  rw [h]

/-- Witness for C8: a transport failure during the initial `cd` probe. The
caught `ConnectionError` makes `run_cmd_line` return `None`, attribute access
on `None` raises, and startup aborts with printed errors and no loop. -/
theorem C8_witness :
    repl_startup asciiConsole connSession =
      (["ERROR: connection refused"] ++
        ["ERROR: " ++
          PyError.message (PyError.attributeError "NoneType object has no attribute std_out")],
       none) :=
  C8_startup_abort asciiConsole connSession [RemoteCall.runCmd "cd" []]
    ["ERROR: connection refused"]
    (PyError.attributeError "NoneType object has no attribute std_out") (by rfl)

/-- Counterexample to C9 as stated: there is no input line, encoding and
session on which dispatch with `multiline := true` differs from dispatch
with `multiline := false` — `run_cmd_line` never reads the flag. -/
theorem C9_counterexample :
    ¬ ∃ (enc : List Nat → Option String) (session : Session) (line : String),
        run_cmd_line ⟨enc, true⟩ session line ≠ run_cmd_line ⟨enc, false⟩ session line := by
  rintro ⟨enc, session, line, h⟩
  exact h rfl

/-- Claim C9 as amended: the dispatch-mode decision does not read
`ConsoleState.multiline`; for every input line the issued calls, prints and
outcome are identical for any two values of the flag (the flag is read only
by the prompt call and the toolbar renderer). -/
theorem C9_dispatch_ignores_multiline (enc : List Nat → Option String) (m m' : Bool)
    (session : Session) (line : String) :
    run_cmd_line ⟨enc, m⟩ session line = run_cmd_line ⟨enc, m'⟩ session line := rfl

/-- Claim C10: `handle_cmd_result` returns exactly its input whenever it
returns normally — the rendered result is the very result object passed in
(`None` for `None`), with all fields unchanged; one-shot mode reads the exit
status off this returned value. -/
theorem C10_render_identity (console : WinRMConsole) (result : Option CommandResult)
    (prints : List String) (v : Option CommandResult)
    (h : handle_cmd_result console result = (prints, Except.ok v)) : v = result := by
  cases result with
  | none =>
    simp [handle_cmd_result] at h
    exact h.2.symm
  | some r =>
    unfold handle_cmd_result at h
    repeat' split at h
    all_goals simp_all

/-- Witness for C10: a concrete successful result is returned unchanged. -/
theorem C10_witness :
    (some (CommandResult.mk 0 (strBytes "ok") []) : Option CommandResult) =
      some (CommandResult.mk 0 (strBytes "ok") []) :=
  C10_render_identity asciiConsole (some (CommandResult.mk 0 (strBytes "ok") []))
    ["ok"] (some (CommandResult.mk 0 (strBytes "ok") [])) (by rfl)

end Ptwinrm
